import Mathlib

/-!
Verification development for the trade backtesting core of AI-Trade-Bot-ICT.

This file gives a shallow embedding of the simulator and reporting code
(src/server/trade_simulator.py, src/server/backtest.py,
src/server/backtest_report.py) and proves the spec claims about it.
Python floats are modelled as exact rationals; candle timestamps are the
same strings the code manipulates; mutation of the Python dataclass is
modelled by functional record update.
-/

/-- Numeric value of a decimal digit character, following the strptime
digit handling used by the timestamp helpers. -/
def digitVal? (c : Char) : Option Nat :=
  if c.isDigit then some (c.toNat - 48) else none

/-- Parse the first sixteen characters of a timestamp string in the
format used by the code, namely YYYY-MM-DD HH:MM, modelling
datetime.strptime in _get_mez_hour and _calc_duration.  Returns
(year, month, day, hour, minute) or none on malformed input
(strptime raising ValueError). -/
def parseTimestamp (s : String) : Option (Nat × Nat × Nat × Nat × Nat) :=
  match s.data.take 16 with
  | [y1, y2, y3, y4, p1, m1, m2, p2, d1, d2, p3, h1, h2, p4, n1, n2] =>
    if p1 = '-' ∧ p2 = '-' ∧ p3 = ' ' ∧ p4 = ':' then
      match digitVal? y1, digitVal? y2, digitVal? y3, digitVal? y4,
            digitVal? m1, digitVal? m2, digitVal? d1, digitVal? d2,
            digitVal? h1, digitVal? h2, digitVal? n1, digitVal? n2 with
      | some a, some b, some c, some d, some e, some f,
        some g, some h, some i, some j, some k, some l =>
        let y := 1000 * a + 100 * b + 10 * c + d
        let mo := 10 * e + f
        let dy := 10 * g + h
        let hr := 10 * i + j
        let mi := 10 * k + l
        if 1 ≤ mo ∧ mo ≤ 12 ∧ 1 ≤ dy ∧ dy ≤ 31 ∧ hr ≤ 23 ∧ mi ≤ 59 then
          some (y, mo, dy, hr, mi)
        else none
      | _, _, _, _, _, _, _, _, _, _, _, _ => none
    else none
  | _ => none

/-- MEZ hour of a candle time string: hour plus timezone offset, reduced
by 24 when it reaches 24; 0 when the timestamp does not parse.
Embeds _get_mez_hour of trade_simulator.py. -/
def getMezHour (time_str : String) (tz_offset : Int) : Int :=
  match parseTimestamp time_str with
  | some (_, _, _, h, _) =>
    let mez := (h : Int) + tz_offset
    if mez ≥ 24 then mez - 24 else mez
  | none => 0

/-- Leap year test of the proleptic Gregorian calendar (datetime). -/
def isLeap (y : Nat) : Bool :=
  y % 4 = 0 && (y % 100 ≠ 0 || y % 400 = 0)

/-- Days elapsed before the first of month m in a year, counting the
leap day when applicable. -/
def daysBeforeMonth (leap : Bool) (m : Nat) : Nat :=
  ([0, 31, 59, 90, 120, 151, 181, 212, 243, 273, 304, 334].getD (m - 1) 0)
    + (if leap && m > 2 then 1 else 0)

/-- Days since the proleptic Gregorian epoch of a calendar date, with
day one of year one at zero, as in the datetime ordinal. -/
def ordinalDays (y mo dy : Nat) : Int :=
  365 * ((y : Int) - 1) + ((y : Int) - 1) / 4
    - ((y : Int) - 1) / 100 + ((y : Int) - 1) / 400
    + (daysBeforeMonth (isLeap y) mo : Int) + ((dy : Int) - 1)

/-- Minutes since the calendar epoch of a (year, month, day, hour,
minute) tuple, modelling datetime subtraction. -/
def toMinutes (t : Nat × Nat × Nat × Nat × Nat) : Int :=
  match t with
  | (y, mo, dy, hr, mi) =>
    ordinalDays y mo dy * 1440 + (hr : Int) * 60 + (mi : Int)

/-- Duration in whole minutes between two time strings, clamped at zero,
0 when either fails to parse.  Embeds _calc_duration of
trade_simulator.py. -/
def calcDuration (start stop : String) : Nat :=
  match parseTimestamp start, parseTimestamp stop with
  | some t1, some t2 => (toMinutes t2 - toMinutes t1).toNat
  | _, _ => 0

/-- One M1 price candle, the dict consumed by simulate_trade. -/
structure Candle where
  time : String
  opn : ℚ
  high : ℚ
  low : ℚ
  close : ℚ
  volume : ℚ
  deriving Repr, DecidableEq

/-- The SimulatedResult dataclass of trade_simulator.py, with the same
field defaults. -/
structure SimulatedResult where
  bias : String := ""
  entry_price : ℚ := 0
  entry_time : String := ""
  stop_loss : ℚ := 0
  tp1 : ℚ := 0
  tp2 : ℚ := 0
  sl_pips : ℚ := 0
  tp1_hit : Bool := false
  tp1_time : Option String := none
  tp1_pips : ℚ := 0
  tp2_hit : Bool := false
  tp2_time : Option String := none
  tp2_pips : ℚ := 0
  sl_hit : Bool := false
  sl_time : Option String := none
  outcome : String := "pending"
  pnl_pips : ℚ := 0
  max_adverse_pips : ℚ := 0
  max_favorable_pips : ℚ := 0
  duration_minutes : Nat := 0
  expired : Bool := false
  checklist_score : String := ""
  confidence : String := ""
  deriving Repr, DecidableEq

/-- Result of the phase 1 entry search of simulate_trade: kill zone
expiry before entry, no bar touching the zone, or entry on a candle with
the remaining candles to scan. -/
inductive EntrySearch where
  | expired : EntrySearch
  | noEntry : EntrySearch
  | entered : Candle → List Candle → EntrySearch
  deriving Repr, DecidableEq

/-- Phase 1 of simulate_trade (lines 123 to 149): scan candles in order,
skipping those before search_start, returning expiry if the MEZ hour
reaches the kill zone end before entry, otherwise entering on the first
candle that touches the zone (low at or below entry_max for longs, high
at or above entry_min otherwise). -/
def findEntry (bias : String) (entry_min entry_max : ℚ) (search_start : String)
    (kill_zone_end_hour timezone_offset : Int) : List Candle → EntrySearch
  | [] => .noEntry
  | c :: rest =>
    if search_start ≠ "" ∧ c.time < search_start then
      findEntry bias entry_min entry_max search_start kill_zone_end_hour timezone_offset rest
    else if getMezHour c.time timezone_offset ≥ kill_zone_end_hour then
      .expired
    else if (if bias = "long" then c.low ≤ entry_max else c.high ≥ entry_min) then
      .entered c rest
    else
      findEntry bias entry_min entry_max search_start kill_zone_end_hour timezone_offset rest

/-- The parameters of the phase 2 scan of simulate_trade that stay fixed
across candles. -/
structure ScanParams where
  bias : String
  entry_price : ℚ
  tp1 : ℚ
  tp2 : ℚ
  sl_pips : ℚ
  pip_size : ℚ
  tp1_close_pct : ℚ
  kill_zone_end_hour : Int
  timezone_offset : Int
  deriving Repr, DecidableEq

/-- The mutable state of the phase 2 loop of simulate_trade: the local
booleans, the working stop, the excursion trackers and the result record
under construction. -/
structure ScanState where
  tp1Hit : Bool
  tp2Hit : Bool
  slHit : Bool
  currentSl : ℚ
  maxAdverse : ℚ
  maxFavorable : ℚ
  result : SimulatedResult
  deriving Repr, DecidableEq

/-- One iteration of the phase 2 loop of simulate_trade (lines 165 to
281) on a single candle.  Sum.inl is a break with the terminal state,
Sum.inr continues with the updated state.  Checks run in source order:
kill zone expiry, excursion tracking, stop loss, TP1 (moving the working
stop to breakeven), TP2.  The fall-through control flow of the source is
specialized per path: every branch performs exactly the record updates
the corresponding Python path performs. -/
def scanStep (p : ScanParams) (st : ScanState) (c : Candle) : ScanState ⊕ ScanState :=
  if getMezHour c.time p.timezone_offset ≥ p.kill_zone_end_hour then
    let remaining_pips :=
      if p.bias = "long" then (c.close - p.entry_price) / p.pip_size
      else (p.entry_price - c.close) / p.pip_size
    if st.tp1Hit then
      let tp1_pips := |p.tp1 - p.entry_price| / p.pip_size
      let pnl := tp1_pips * p.tp1_close_pct / 100 + remaining_pips * (1 - p.tp1_close_pct / 100)
      .inl { st with
        result := { st.result with
        tp1_hit := true, pnl_pips := pnl,
        outcome := if pnl > 0 then "partial_win" else "breakeven",
        expired := true, duration_minutes := calcDuration st.result.entry_time c.time } }
    else
      .inl { st with
        result := { st.result with
        pnl_pips := remaining_pips, outcome := "expired",
        expired := true, duration_minutes := calcDuration st.result.entry_time c.time } }
  else
    let adverse :=
      if p.bias = "long" then (p.entry_price - c.low) / p.pip_size
      else (c.high - p.entry_price) / p.pip_size
    let favorable :=
      if p.bias = "long" then (c.high - p.entry_price) / p.pip_size
      else (p.entry_price - c.low) / p.pip_size
    let mA := max st.maxAdverse adverse
    let mF := max st.maxFavorable favorable
    if st.slHit = false ∧ p.bias = "long" ∧ c.low ≤ st.currentSl then
      if st.tp1Hit then
        .inl { st with
          maxAdverse := mA, maxFavorable := mF, slHit := true,
          result := { st.result with
            sl_hit := true, sl_time := some c.time,
            pnl_pips := |p.tp1 - p.entry_price| / p.pip_size * p.tp1_close_pct / 100,
            outcome := "partial_win",
            duration_minutes := calcDuration st.result.entry_time c.time } }
      else
        .inl { st with
          maxAdverse := mA, maxFavorable := mF, slHit := true,
          result := { st.result with
            sl_hit := true, sl_time := some c.time,
            pnl_pips := -p.sl_pips, outcome := "loss",
            duration_minutes := calcDuration st.result.entry_time c.time } }
    else if st.slHit = false ∧ p.bias = "short" ∧ c.high ≥ st.currentSl then
      if st.tp1Hit then
        .inl { st with
          maxAdverse := mA, maxFavorable := mF, slHit := true,
          result := { st.result with
            sl_hit := true, sl_time := some c.time,
            pnl_pips := |p.entry_price - p.tp1| / p.pip_size * p.tp1_close_pct / 100,
            outcome := "partial_win",
            duration_minutes := calcDuration st.result.entry_time c.time } }
      else
        .inl { st with
          maxAdverse := mA, maxFavorable := mF, slHit := true,
          result := { st.result with
            sl_hit := true, sl_time := some c.time,
            pnl_pips := -p.sl_pips, outcome := "loss",
            duration_minutes := calcDuration st.result.entry_time c.time } }
    else if st.tp1Hit = false ∧ p.bias = "long" ∧ c.high ≥ p.tp1 then
      let tp1_pips := |p.tp1 - p.entry_price| / p.pip_size
      if st.tp2Hit = false ∧ c.high ≥ p.tp2 then
        let tp2_pips := |p.tp2 - p.entry_price| / p.pip_size
        .inl { st with
          maxAdverse := mA, maxFavorable := mF, tp1Hit := true, tp2Hit := true,
          currentSl := p.entry_price,
          result := { st.result with
            tp1_hit := true, tp1_time := some c.time, tp1_pips := tp1_pips,
            tp2_hit := true, tp2_time := some c.time, tp2_pips := tp2_pips,
            pnl_pips := tp1_pips * p.tp1_close_pct / 100 + tp2_pips * (1 - p.tp1_close_pct / 100),
            outcome := "full_win",
            duration_minutes := calcDuration st.result.entry_time c.time } }
      else
        .inr { st with
          maxAdverse := mA, maxFavorable := mF, tp1Hit := true,
          currentSl := p.entry_price,
          result := { st.result with
            tp1_hit := true, tp1_time := some c.time, tp1_pips := tp1_pips } }
    else if st.tp1Hit = false ∧ p.bias = "short" ∧ c.low ≤ p.tp1 then
      let tp1_pips := |p.entry_price - p.tp1| / p.pip_size
      if st.tp2Hit = false ∧ c.low ≤ p.tp2 then
        let tp2_pips := |p.entry_price - p.tp2| / p.pip_size
        .inl { st with
          maxAdverse := mA, maxFavorable := mF, tp1Hit := true, tp2Hit := true,
          currentSl := p.entry_price,
          result := { st.result with
            tp1_hit := true, tp1_time := some c.time, tp1_pips := tp1_pips,
            tp2_hit := true, tp2_time := some c.time, tp2_pips := tp2_pips,
            pnl_pips := tp1_pips * p.tp1_close_pct / 100 + tp2_pips * (1 - p.tp1_close_pct / 100),
            outcome := "full_win",
            duration_minutes := calcDuration st.result.entry_time c.time } }
      else
        .inr { st with
          maxAdverse := mA, maxFavorable := mF, tp1Hit := true,
          currentSl := p.entry_price,
          result := { st.result with
            tp1_hit := true, tp1_time := some c.time, tp1_pips := tp1_pips } }
    else if st.tp1Hit = true ∧ st.tp2Hit = false ∧ p.bias = "long" ∧ c.high ≥ p.tp2 then
      let tp1_pips := |p.tp1 - p.entry_price| / p.pip_size
      let tp2_pips := |p.tp2 - p.entry_price| / p.pip_size
      .inl { st with
        maxAdverse := mA, maxFavorable := mF, tp2Hit := true,
        result := { st.result with
          tp2_hit := true, tp2_time := some c.time, tp2_pips := tp2_pips,
          pnl_pips := tp1_pips * p.tp1_close_pct / 100 + tp2_pips * (1 - p.tp1_close_pct / 100),
          outcome := "full_win",
          duration_minutes := calcDuration st.result.entry_time c.time } }
    else if st.tp1Hit = true ∧ st.tp2Hit = false ∧ p.bias = "short" ∧ c.low ≤ p.tp2 then
      let tp1_pips := |p.entry_price - p.tp1| / p.pip_size
      let tp2_pips := |p.entry_price - p.tp2| / p.pip_size
      .inl { st with
        maxAdverse := mA, maxFavorable := mF, tp2Hit := true,
        result := { st.result with
          tp2_hit := true, tp2_time := some c.time, tp2_pips := tp2_pips,
          pnl_pips := tp1_pips * p.tp1_close_pct / 100 + tp2_pips * (1 - p.tp1_close_pct / 100),
          outcome := "full_win",
          duration_minutes := calcDuration st.result.entry_time c.time } }
    else
      .inr { st with
        maxAdverse := mA, maxFavorable := mF }

/-- The phase 2 loop of simulate_trade: fold scanStep over the candles
after entry, stopping at the first break. -/
def scanLoop (p : ScanParams) : ScanState → List Candle → ScanState
  | st, [] => st
  | st, c :: rest =>
    match scanStep p st c with
    | .inl stop => stop
    | .inr next => scanLoop p next rest

/-- Time of the last candle of a list, empty string for an empty list
(the code only takes it on a nonempty list). -/
def lastTime (candles : List Candle) : String :=
  match candles.getLast? with
  | some c => c.time
  | none => ""

/-- The scan parameters simulate_trade fixes for phase 2: entry at the
zone midpoint, the rest as passed in. -/
def simScanParams (bias : String) (entry_min entry_max tp1 tp2 sl_pips pip_size
    tp1_close_pct : ℚ) (kill_zone_end_hour timezone_offset : Int) : ScanParams :=
  { bias := bias, entry_price := (entry_min + entry_max) / 2, tp1 := tp1, tp2 := tp2,
    sl_pips := sl_pips, pip_size := pip_size, tp1_close_pct := tp1_close_pct,
    kill_zone_end_hour := kill_zone_end_hour, timezone_offset := timezone_offset }

/-- The scan state simulate_trade starts phase 2 with: nothing hit,
working stop at the original stop loss, result record carrying the setup
fields, the midpoint entry price and the entry time. -/
def simEntryState (bias : String) (entry_min entry_max stop_loss tp1 tp2 sl_pips : ℚ)
    (checklist_score confidence entry_time : String) : ScanState :=
  { tp1Hit := false, tp2Hit := false, slHit := false, currentSl := stop_loss,
    maxAdverse := 0, maxFavorable := 0,
    result := { bias := bias, entry_price := (entry_min + entry_max) / 2,
                entry_time := entry_time, stop_loss := stop_loss, tp1 := tp1, tp2 := tp2,
                sl_pips := sl_pips, outcome := "pending",
                checklist_score := checklist_score, confidence := confidence } }

/-- The simulate_trade function of trade_simulator.py: empty data guard,
phase 1 entry search, phase 2 scan, and finalization of a still pending
result as expired using the last candle of the whole input. -/
def simulate_trade (bias : String) (entry_min entry_max stop_loss tp1 tp2 sl_pips : ℚ)
    (m1_candles : List Candle) (search_start : String)
    (kill_zone_end_hour timezone_offset : Int) (pip_size tp1_close_pct : ℚ)
    (checklist_score confidence : String) : SimulatedResult :=
  let result : SimulatedResult :=
    { bias := bias, stop_loss := stop_loss, tp1 := tp1, tp2 := tp2, sl_pips := sl_pips,
      checklist_score := checklist_score, confidence := confidence }
  if m1_candles = [] then { result with outcome := "no_data" }
  else
    let entry_price := (entry_min + entry_max) / 2
    let result := { result with entry_price := entry_price }
    match findEntry bias entry_min entry_max search_start kill_zone_end_hour timezone_offset
        m1_candles with
    | .expired => { result with outcome := "expired", expired := true }
    | .noEntry => { result with outcome := "no_entry", expired := true }
    | .entered c rest =>
      let p := simScanParams bias entry_min entry_max tp1 tp2 sl_pips pip_size
        tp1_close_pct kill_zone_end_hour timezone_offset
      let st0 := simEntryState bias entry_min entry_max stop_loss tp1 tp2 sl_pips
        checklist_score confidence c.time
      let stF := scanLoop p st0 rest
      let r := { stF.result with
        max_adverse_pips := stF.maxAdverse,
        max_favorable_pips := stF.maxFavorable }
      if r.outcome = "pending" then
        { r with
          outcome := "expired", expired := true,
          duration_minutes := calcDuration r.entry_time (lastTime m1_candles) }
      else r

/-- The simulate_batch function of trade_simulator.py is a plain map of
simulate_trade over setups; the batch runner in backtest.py is modelled
below.  A profit factor is a nonnegative rational or positive infinity
(Python float inf), kept as a tagged value. -/
inductive ProfitFactor where
  | value : ℚ → ProfitFactor
  | posInf : ProfitFactor
  deriving Repr, DecidableEq

/-- Round a rational to the nearest integer, ties to even, modelling
Python round on an exactly representable value. -/
def roundHalfEven (q : ℚ) : ℤ :=
  let f := ⌊q⌋
  let frac := q - (f : ℚ)
  if frac < 1 / 2 then f
  else if frac > 1 / 2 then f + 1
  else if f % 2 = 0 then f else f + 1

/-- Round a rational to n decimal digits, ties to even, modelling Python
round(x, n). -/
def roundTo (q : ℚ) (n : Nat) : ℚ :=
  (roundHalfEven (q * (10 : ℚ) ^ n) : ℚ) / (10 : ℚ) ^ n

/-- Round a profit factor to two decimals; Python round leaves infinity
unchanged. -/
def roundPF (pf : ProfitFactor) : ProfitFactor :=
  match pf with
  | .value q => .value (roundTo q 2)
  | .posInf => .posInf

/-- Outcomes excluded from the traded set by _compute_run_summary
(line 373): trades that never entered the market. -/
def tradedFilter (rs : List SimulatedResult) : List SimulatedResult :=
  rs.filter (fun r => r.outcome != "no_data" && r.outcome != "no_entry")

/-- Gross profit of a result list: sum of the positive pnl values
(line 392 of backtest.py). -/
def grossProfit (traded : List SimulatedResult) : ℚ :=
  (traded.filter (fun r => r.pnl_pips > 0)).foldl (fun acc r => acc + r.pnl_pips) 0

/-- Gross loss of a result list: absolute value of the sum of the
negative pnl values (line 393 of backtest.py). -/
def grossLoss (traded : List SimulatedResult) : ℚ :=
  |(traded.filter (fun r => r.pnl_pips < 0)).foldl (fun acc r => acc + r.pnl_pips) 0|

/-- The guarded profit factor expression of line 394 of backtest.py. -/
def profitFactorOf (traded : List SimulatedResult) : ProfitFactor :=
  if grossLoss traded > 0 then .value (grossProfit traded / grossLoss traded)
  else if grossProfit traded > 0 then .posInf
  else .value 0

/-- Running max drawdown fold of lines 397 to 406 of backtest.py. -/
def drawdownFold (traded : List SimulatedResult) : ℚ :=
  (traded.foldl
    (fun acc r =>
      let running := acc.2.1 + r.pnl_pips
      let peak := if running > acc.2.2 then running else acc.2.2
      let dd := peak - running
      (if dd > acc.1 then dd else acc.1, running, peak))
    ((0 : ℚ), (0 : ℚ), (0 : ℚ))).1

/-- The run summary dict produced by _compute_run_summary of
backtest.py. -/
structure RunSummary where
  total_setups : Nat
  total_trades : Nat
  no_entry : Nat
  wins : Nat
  partial_wins : Nat
  losses : Nat
  breakevens : Nat
  expired : Nat
  win_rate : ℚ
  profit_factor : ProfitFactor
  total_pnl_pips : ℚ
  gross_profit_pips : ℚ
  gross_loss_pips : ℚ
  max_drawdown_pips : ℚ
  avg_rr_achieved : ℚ
  avg_duration_minutes : ℚ
  max_adverse_excursion : ℚ
  deriving Repr, DecidableEq

/-- The _compute_run_summary function of backtest.py (lines 370 to 440):
aggregate statistics over a list of simulation results, counting only
entered trades for the performance figures. -/
def computeRunSummary (results : List SimulatedResult) : RunSummary :=
  let traded := tradedFilter results
  let total_setups := results.length
  let total_trades := traded.length
  let no_entry := (results.filter
    (fun r => r.outcome == "no_entry" || r.outcome == "no_data")).length
  let wins := (traded.filter (fun r => r.outcome == "full_win")).length
  let partial_wins := (traded.filter (fun r => r.outcome == "partial_win")).length
  let losses := (traded.filter (fun r => r.outcome == "loss")).length
  let breakevens := (traded.filter (fun r => r.outcome == "breakeven")).length
  let expired := (traded.filter (fun r => r.outcome == "expired")).length
  let win_count := wins + partial_wins
  let win_rate : ℚ :=
    if total_trades > 0 then (win_count : ℚ) / (total_trades : ℚ) * 100 else 0
  let total_pnl := traded.foldl (fun acc r => acc + r.pnl_pips) 0
  let gp := grossProfit traded
  let gl := grossLoss traded
  let pf := profitFactorOf traded
  let max_dd := drawdownFold traded
  let rr_list := (traded.filter (fun r => r.sl_pips > 0 && r.pnl_pips != 0)).map
    (fun r => r.pnl_pips / r.sl_pips)
  let avg_rr : ℚ :=
    if rr_list ≠ [] then rr_list.foldl (· + ·) 0 / (rr_list.length : ℚ) else 0
  let durations := (traded.filter (fun r => r.duration_minutes > 0)).map
    (fun r => (r.duration_minutes : ℚ))
  let avg_duration : ℚ :=
    if durations ≠ [] then durations.foldl (· + ·) 0 / (durations.length : ℚ) else 0
  let max_adverse := (traded.map (fun r => r.max_adverse_pips)).foldl max 0
  { total_setups := total_setups
    total_trades := total_trades
    no_entry := no_entry
    wins := wins
    partial_wins := partial_wins
    losses := losses
    breakevens := breakevens
    expired := expired
    win_rate := roundTo win_rate 1
    profit_factor := roundPF pf
    total_pnl_pips := roundTo total_pnl 1
    gross_profit_pips := roundTo gp 1
    gross_loss_pips := roundTo gl 1
    max_drawdown_pips := roundTo max_dd 1
    avg_rr_achieved := roundTo avg_rr 2
    avg_duration_minutes := roundTo avg_duration 0
    max_adverse_excursion := roundTo max_adverse 1 }

/-- One setup dict consumed by run_backtest of backtest.py. -/
structure Setup where
  date : String
  bias : String
  entry_min : ℚ
  entry_max : ℚ
  stop_loss : ℚ
  tp1 : ℚ
  tp2 : ℚ
  sl_pips : ℚ
  search_start : String
  tp1_close_pct : Option ℚ
  checklist_score : String
  confidence : String
  deriving Repr, DecidableEq

/-- The sentinel result produced by run_backtest (lines 272 to 277 of
backtest.py) for a setup whose date has no candles, without calling the
simulator: only bias, outcome and the tag fields are populated. -/
def noDataSentinel (s : Setup) : SimulatedResult :=
  { bias := s.bias, outcome := "no_data",
    checklist_score := s.checklist_score, confidence := s.confidence }

/-- Pip size for JPY pairs, the module constant of trade_simulator.py;
run_backtest leaves simulate_trade on this default. -/
def GBPJPY_PIP_SIZE : ℚ := 1 / 100

/-- Simulation of one setup by run_backtest (lines 259 to 296 of
backtest.py): empty candle data short-circuits to the sentinel,
otherwise simulate_trade runs with the setup fields and run-level
parameters (pip size stays on the module default).  The per-date candle
cache is observationally the lookup function itself, since the lookup is
pure within one batch. -/
def runSetup (lookup : String → List Candle) (kill_zone_end_hour timezone_offset : Int)
    (tp1_close_pct : ℚ) (s : Setup) : SimulatedResult :=
  let m1_candles := lookup s.date
  if m1_candles = [] then noDataSentinel s
  else
    simulate_trade s.bias s.entry_min s.entry_max s.stop_loss s.tp1 s.tp2 s.sl_pips
      m1_candles s.search_start kill_zone_end_hour timezone_offset GBPJPY_PIP_SIZE
      (match s.tp1_close_pct with | some q => q | none => tp1_close_pct)
      s.checklist_score s.confidence

/-- The pure core of run_backtest of backtest.py: the outcome list and
the run summary (persistence of both is external). -/
def run_backtest (lookup : String → List Candle) (kill_zone_end_hour timezone_offset : Int)
    (tp1_close_pct : ℚ) (setups : List Setup) :
    List SimulatedResult × RunSummary :=
  let results := setups.map (runSetup lookup kill_zone_end_hour timezone_offset tp1_close_pct)
  (results, computeRunSummary results)

/-- Parse a date string YYYY-MM-DD (the first ten characters), modelling
datetime.strptime with the date format in _breakdown_by_day. -/
def parseDate (s : String) : Option (Nat × Nat × Nat) :=
  match s.data.take 10 with
  | [y1, y2, y3, y4, p1, m1, m2, p2, d1, d2] =>
    if p1 = '-' ∧ p2 = '-' then
      match digitVal? y1, digitVal? y2, digitVal? y3, digitVal? y4,
            digitVal? m1, digitVal? m2, digitVal? d1, digitVal? d2 with
      | some a, some b, some c, some d, some e, some f, some g, some h =>
        let y := 1000 * a + 100 * b + 10 * c + d
        let mo := 10 * e + f
        let dy := 10 * g + h
        if 1 ≤ mo ∧ mo ≤ 12 ∧ 1 ≤ dy ∧ dy ≤ 31 then some (y, mo, dy) else none
      | _, _, _, _, _, _, _, _ => none
    else none
  | _ => none

/-- One row of the backtest_trades table as read back by the report
generator: only the fields backtest_report.py actually consumes. -/
structure BTrade where
  trade_date : String
  bias : String
  entry_price : ℚ
  entry_time : String
  checklist_score : String
  confidence : String
  outcome : String
  pnl_pips : ℚ
  duration_minutes : Nat
  deriving Repr, DecidableEq

/-- The per-group statistics dict of _compute_group_stats of
backtest_report.py. -/
structure GroupStats where
  count : Nat
  wins : Nat
  losses : Nat
  win_rate : ℚ
  total_pnl : ℚ
  avg_pnl : ℚ
  profit_factor : ProfitFactor
  deriving Repr, DecidableEq

/-- The _compute_group_stats function of backtest_report.py (lines 97 to
125): zero-valued stats for an empty group, otherwise counts, win rate,
pnl totals and the guarded profit factor. -/
def computeGroupStats (trades : List BTrade) : GroupStats :=
  if trades = [] then
    { count := 0, wins := 0, losses := 0, win_rate := 0,
      total_pnl := 0, avg_pnl := 0, profit_factor := .value 0 }
  else
    let count := trades.length
    let wins := (trades.filter
      (fun t => t.outcome == "full_win" || t.outcome == "partial_win")).length
    let losses := (trades.filter (fun t => t.outcome == "loss")).length
    let win_rate : ℚ := if count > 0 then (wins : ℚ) / (count : ℚ) * 100 else 0
    let total_pnl := trades.foldl (fun a t => a + t.pnl_pips) 0
    let gp := (trades.filter (fun t => t.pnl_pips > 0)).foldl (fun a t => a + t.pnl_pips) 0
    let gl := |(trades.filter (fun t => t.pnl_pips < 0)).foldl (fun a t => a + t.pnl_pips) 0|
    let pf : ProfitFactor :=
      if gl > 0 then .value (gp / gl) else if gp > 0 then .posInf else .value 0
    { count := count, wins := wins, losses := losses,
      win_rate := roundTo win_rate 1, total_pnl := roundTo total_pnl 1,
      avg_pnl := if count > 0 then roundTo (total_pnl / (count : ℚ)) 1 else 0,
      profit_factor := roundPF pf }

/-- The _get_checklist_bracket function of backtest_report.py: map a
score string such as 10/12 to its bracket, Unknown when the leading
component is not an integer. -/
def getChecklistBracket (score : String) : String :=
  match (score.splitOn "/").head? with
  | some s0 =>
    match s0.toInt? with
    | some num =>
      if num ≥ 10 then "10-12 (HIGH)"
      else if num ≥ 7 then "7-9 (MEDIUM)"
      else if num ≥ 4 then "4-6 (LOW)"
      else "<4 (REJECT)"
    | none => "Unknown"
  | none => "Unknown"

/-- Distinct values of a key list in first-occurrence order (the
defaultdict insertion order of the breakdown helpers). -/
def distinctKeys (keys : List String) : List String :=
  keys.foldl (fun acc k => if acc.contains k then acc else acc ++ [k]) []

/-- Insert a string into a sorted list, keeping it sorted (the sorted()
call over group keys). -/
def insertSorted (k : String) : List String → List String
  | [] => [k]
  | x :: xs => if k ≤ x then k :: x :: xs else x :: insertSorted k xs

/-- Sort a list of strings, modelling Python sorted over group keys. -/
def sortKeys (ks : List String) : List String :=
  ks.foldl (fun acc k => insertSorted k acc) []

/-- Group trades by a string key and compute group stats per key in
sorted key order, the shared shape of the breakdown helpers of
backtest_report.py. -/
def breakdownBy (key : BTrade → String) (trades : List BTrade) :
    List (String × GroupStats) :=
  (sortKeys (distinctKeys (trades.map key))).map
    (fun k => (k, computeGroupStats (trades.filter (fun t => key t == k))))

/-- The _breakdown_by_checklist function of backtest_report.py. -/
def breakdownByChecklist (trades : List BTrade) : List (String × GroupStats) :=
  breakdownBy (fun t => getChecklistBracket t.checklist_score) trades

/-- The _breakdown_by_confidence function of backtest_report.py: key is
the upper-cased confidence tag, UNKNOWN for an empty tag. -/
def breakdownByConfidence (trades : List BTrade) : List (String × GroupStats) :=
  breakdownBy (fun t => (if t.confidence = "" then "UNKNOWN" else t.confidence.toUpper)) trades

/-- The _breakdown_by_bias function of backtest_report.py: key is the
upper-cased bias, UNKNOWN for an empty bias. -/
def breakdownByBias (trades : List BTrade) : List (String × GroupStats) :=
  breakdownBy (fun t => (if t.bias = "" then "unknown" else t.bias).toUpper) trades

/-- Weekday names in Python weekday order, Monday first. -/
def dayNames : List String :=
  ["Monday", "Tuesday", "Wednesday", "Thursday", "Friday", "Saturday", "Sunday"]

/-- Weekday name of a trade date string, Unknown when it does not parse,
as in _breakdown_by_day. -/
def weekdayName (date_str : String) : String :=
  match parseDate date_str with
  | some (y, mo, dy) => dayNames.getD ((ordinalDays y mo dy).emod 7).toNat "Unknown"
  | none => "Unknown"

/-- The _breakdown_by_day function of backtest_report.py: group stats
per weekday, reported in weekday order with Unknown last, only for days
that occur. -/
def breakdownByDay (trades : List BTrade) : List (String × GroupStats) :=
  let present := trades.map (fun t => weekdayName t.trade_date)
  ((dayNames ++ ["Unknown"]).filter (fun d => present.contains d)).map
    (fun d => (d, computeGroupStats (trades.filter (fun t => weekdayName t.trade_date == d))))

/-- One point of the equity curve of _build_equity_curve. -/
structure EquityPoint where
  date : String
  time : String
  pnl : ℚ
  cumulative : ℚ
  outcome : String
  deriving Repr, DecidableEq

/-- The _build_equity_curve function of backtest_report.py (lines 202 to
217): cumulative pnl walk over the trades in order. -/
def buildEquityCurve (trades : List BTrade) : List EquityPoint :=
  (trades.foldl
    (fun (acc : List EquityPoint × ℚ) t =>
      let cum := acc.2 + t.pnl_pips
      (acc.1 ++ [{ date := t.trade_date, time := t.entry_time,
                   pnl := roundTo t.pnl_pips 1, cumulative := roundTo cum 1,
                   outcome := t.outcome }], cum))
    ([], 0)).1

/-- The notable-trade projection emitted by _find_best_trade and
_find_worst_trade. -/
structure NotableTrade where
  date : String
  bias : String
  outcome : String
  pnl_pips : ℚ
  entry_price : ℚ
  duration_minutes : Nat
  checklist_score : String
  deriving Repr, DecidableEq

/-- Projection of a trade row to the notable-trade dict. -/
def toNotable (t : BTrade) : NotableTrade :=
  { date := t.trade_date, bias := t.bias, outcome := t.outcome, pnl_pips := t.pnl_pips,
    entry_price := t.entry_price, duration_minutes := t.duration_minutes,
    checklist_score := t.checklist_score }

/-- The _find_best_trade function: first trade of maximal pnl, none for
an empty list (Python max keeps the first maximal element). -/
def findBestTrade (trades : List BTrade) : Option NotableTrade :=
  match trades with
  | [] => none
  | t :: ts =>
    some (toNotable (ts.foldl (fun b x => if x.pnl_pips > b.pnl_pips then x else b) t))

/-- The _find_worst_trade function: first trade of minimal pnl. -/
def findWorstTrade (trades : List BTrade) : Option NotableTrade :=
  match trades with
  | [] => none
  | t :: ts =>
    some (toNotable (ts.foldl (fun b x => if x.pnl_pips < b.pnl_pips then x else b) t))

/-- The streaks dict of _compute_streaks. -/
structure Streaks where
  max_win_streak : Nat
  max_loss_streak : Nat
  current_streak : Nat
  current_type : String
  deriving Repr, DecidableEq

/-- One step of the streak pass of _compute_streaks (lines 268 to 285):
wins extend or restart a win streak, losses a loss streak, every other
outcome leaves the state untouched. -/
def streakStep (s : Streaks) (outcome : String) : Streaks :=
  if outcome == "full_win" || outcome == "partial_win" then
    let cur := if s.current_type = "win" then s.current_streak + 1 else 1
    { max_win_streak := max s.max_win_streak cur, max_loss_streak := s.max_loss_streak,
      current_streak := cur, current_type := "win" }
  else if outcome == "loss" then
    let cur := if s.current_type = "loss" then s.current_streak + 1 else 1
    { max_win_streak := s.max_win_streak, max_loss_streak := max s.max_loss_streak cur,
      current_streak := cur, current_type := "loss" }
  else s

/-- The _compute_streaks function of backtest_report.py: a single
forward pass with the streak step, zeros for an empty list. -/
def computeStreaks (trades : List BTrade) : Streaks :=
  if trades = [] then
    { max_win_streak := 0, max_loss_streak := 0, current_streak := 0, current_type := "" }
  else
    trades.foldl (fun s t => streakStep s t.outcome)
      { max_win_streak := 0, max_loss_streak := 0, current_streak := 0, current_type := "" }

/-- The backtest_runs row as read back by generate_report: the fields
_build_overview consumes. -/
structure RunRecord where
  id : String
  symbol : String
  start_date : String
  end_date : String
  mode : String
  total_setups : Nat
  total_trades : Nat
  no_entry : Nat
  wins : Nat
  partial_wins : Nat
  losses : Nat
  breakevens : Nat
  expired : Nat
  win_rate : ℚ
  profit_factor : ProfitFactor
  total_pnl_pips : ℚ
  max_drawdown_pips : ℚ
  avg_rr_achieved : ℚ
  avg_duration_minutes : ℚ
  deriving Repr, DecidableEq

/-- The overview section built by _build_overview, with its guarded
average pnl per trade. -/
structure Overview where
  total_setups : Nat
  total_trades : Nat
  no_entry : Nat
  wins : Nat
  partial_wins : Nat
  losses : Nat
  breakevens : Nat
  expired : Nat
  win_rate : ℚ
  profit_factor : ProfitFactor
  total_pnl_pips : ℚ
  max_drawdown_pips : ℚ
  avg_rr_achieved : ℚ
  avg_duration_minutes : ℚ
  avg_pnl_per_trade : ℚ
  deriving Repr, DecidableEq

/-- The _build_overview function of backtest_report.py (lines 71 to 91):
copies the run fields and computes average pnl per trade with the
denominator clamped to at least one. -/
def buildOverview (run : RunRecord) : Overview :=
  { total_setups := run.total_setups, total_trades := run.total_trades,
    no_entry := run.no_entry, wins := run.wins, partial_wins := run.partial_wins,
    losses := run.losses, breakevens := run.breakevens, expired := run.expired,
    win_rate := run.win_rate, profit_factor := run.profit_factor,
    total_pnl_pips := run.total_pnl_pips, max_drawdown_pips := run.max_drawdown_pips,
    avg_rr_achieved := run.avg_rr_achieved,
    avg_duration_minutes := run.avg_duration_minutes,
    avg_pnl_per_trade := roundTo (run.total_pnl_pips / (max run.total_trades 1 : ℚ)) 1 }

/-- The report dict assembled by generate_report (the wall-clock
generated_at stamp is external). -/
structure Report where
  run_id : String
  symbol : String
  period : String
  mode : String
  overview : Overview
  by_checklist_score : List (String × GroupStats)
  by_confidence : List (String × GroupStats)
  by_bias : List (String × GroupStats)
  by_day_of_week : List (String × GroupStats)
  equity_curve : List EquityPoint
  best_trade : Option NotableTrade
  worst_trade : Option NotableTrade
  streaks : Streaks
  deriving Repr, DecidableEq

/-- The generate_report function of backtest_report.py (lines 28 to 68):
filter to entered trades, then assemble overview, breakdowns, equity
curve, notable trades and streaks. -/
def generate_report (run : RunRecord) (trades : List BTrade) : Report :=
  let entered := trades.filter
    (fun t => t.outcome != "no_data" && t.outcome != "no_entry")
  { run_id := run.id, symbol := run.symbol,
    period := run.start_date ++ " to " ++ run.end_date, mode := run.mode,
    overview := buildOverview run,
    by_checklist_score := breakdownByChecklist entered,
    by_confidence := breakdownByConfidence entered,
    by_bias := breakdownByBias entered,
    by_day_of_week := breakdownByDay entered,
    equity_curve := buildEquityCurve entered,
    best_trade := findBestTrade entered,
    worst_trade := findWorstTrade entered,
    streaks := computeStreaks entered }

/-- Terminal outcome strings a phase 2 break can assign. -/
def terminalOutcomes : List String := ["partial_win", "breakeven", "expired", "loss", "full_win"]

set_option maxHeartbeats 1600000 in
lemma scanStep_inl_outcome (p : ScanParams) (st : ScanState) (c : Candle) (t : ScanState)
    (h : scanStep p st c = Sum.inl t) : t.result.outcome ∈ terminalOutcomes := by
  simp only [scanStep] at h
  split_ifs at h <;>
    first
      | exact Sum.noConfusion h
      | (injection h with h
         subst h
         first
           | (split <;> simp [terminalOutcomes])
           | simp [terminalOutcomes])

set_option maxHeartbeats 1600000 in
lemma scanStep_inr_spec (p : ScanParams) (st : ScanState) (c : Candle) (s : ScanState)
    (h : scanStep p st c = Sum.inr s) :
    s.result.outcome = st.result.outcome ∧
    s.result.pnl_pips = st.result.pnl_pips ∧
    s.slHit = st.slHit ∧
    (st.tp1Hit = st.result.tp1_hit → s.tp1Hit = s.result.tp1_hit) ∧
    ((st.tp1Hit = true → st.result.tp1_pips = |p.tp1 - p.entry_price| / p.pip_size) →
      (s.tp1Hit = true → s.result.tp1_pips = |p.tp1 - p.entry_price| / p.pip_size)) := by
  simp only [scanStep] at h
  split_ifs at h <;>
    first
      | exact Sum.noConfusion h
      | (injection h with h
         subst h
         simp_all [abs_sub_comm])

set_option maxHeartbeats 1600000 in
lemma scanStep_inl_full_win (p : ScanParams) (st : ScanState) (c : Candle) (t : ScanState)
    (h2 : st.tp1Hit = st.result.tp1_hit)
    (h3 : st.tp1Hit = true → st.result.tp1_pips = |p.tp1 - p.entry_price| / p.pip_size)
    (hstep : scanStep p st c = Sum.inl t)
    (hfw : t.result.outcome = "full_win") :
    t.result.tp1_hit = true ∧ t.result.tp2_hit = true ∧
    t.result.tp1_pips = |p.tp1 - p.entry_price| / p.pip_size ∧
    t.result.tp2_pips = |p.tp2 - p.entry_price| / p.pip_size ∧
    t.result.pnl_pips = t.result.tp1_pips * p.tp1_close_pct / 100
      + t.result.tp2_pips * (1 - p.tp1_close_pct / 100) := by
  simp only [scanStep] at hstep
  split_ifs at hstep <;>
    first
      | exact Sum.noConfusion hstep
      | (injection hstep with hstep
         subst hstep
         first
           | (exfalso; revert hfw; split <;> simp)
           | simp_all [abs_sub_comm])

set_option maxHeartbeats 1600000 in
lemma scanStep_inl_loss (p : ScanParams) (st : ScanState) (c : Candle) (t : ScanState)
    (h2 : st.tp1Hit = st.result.tp1_hit)
    (hstep : scanStep p st c = Sum.inl t)
    (hl : t.result.outcome = "loss") :
    t.result.pnl_pips = -p.sl_pips ∧ t.result.tp1_hit = false := by
  simp only [scanStep] at hstep
  split_ifs at hstep <;>
    first
      | exact Sum.noConfusion hstep
      | (injection hstep with hstep
         subst hstep
         first
           | (exfalso; revert hl; split <;> simp)
           | simp_all)

lemma scanLoop_outcome (p : ScanParams) (st : ScanState) (bars : List Candle) :
    (scanLoop p st bars).result.outcome = st.result.outcome ∨
    (scanLoop p st bars).result.outcome ∈ terminalOutcomes := by
  induction bars generalizing st with
  | nil => exact Or.inl rfl
  | cons c rest ih =>
    cases hstep : scanStep p st c with
    | inl t =>
      simp only [scanLoop, hstep]
      exact Or.inr (scanStep_inl_outcome p st c t hstep)
    | inr s =>
      simp only [scanLoop, hstep]
      rcases ih s with h | h
      · rw [h, (scanStep_inr_spec p st c s hstep).1]
        exact Or.inl rfl
      · exact Or.inr h

lemma scanLoop_full_win (p : ScanParams) (st : ScanState) (bars : List Candle)
    (h2 : st.tp1Hit = st.result.tp1_hit)
    (h3 : st.tp1Hit = true → st.result.tp1_pips = |p.tp1 - p.entry_price| / p.pip_size)
    (hpend : st.result.outcome = "pending")
    (hfw : (scanLoop p st bars).result.outcome = "full_win") :
    (scanLoop p st bars).result.tp1_hit = true ∧
    (scanLoop p st bars).result.tp2_hit = true ∧
    (scanLoop p st bars).result.tp1_pips = |p.tp1 - p.entry_price| / p.pip_size ∧
    (scanLoop p st bars).result.tp2_pips = |p.tp2 - p.entry_price| / p.pip_size ∧
    (scanLoop p st bars).result.pnl_pips =
      (scanLoop p st bars).result.tp1_pips * p.tp1_close_pct / 100
      + (scanLoop p st bars).result.tp2_pips * (1 - p.tp1_close_pct / 100) := by
  induction bars generalizing st with
  | nil => rw [scanLoop] at hfw; rw [hpend] at hfw; exact absurd hfw (by simp)
  | cons c rest ih =>
    cases hstep : scanStep p st c with
    | inl t =>
      simp only [scanLoop, hstep] at hfw ⊢
      exact scanStep_inl_full_win p st c t h2 h3 hstep hfw
    | inr s =>
      simp only [scanLoop, hstep] at hfw ⊢
      obtain ⟨ho, _, _, hi2, hi3⟩ := scanStep_inr_spec p st c s hstep
      exact ih s (hi2 h2) (hi3 h3) (ho.trans hpend) hfw

lemma scanLoop_loss (p : ScanParams) (st : ScanState) (bars : List Candle)
    (h2 : st.tp1Hit = st.result.tp1_hit)
    (hpend : st.result.outcome = "pending")
    (hl : (scanLoop p st bars).result.outcome = "loss") :
    (scanLoop p st bars).result.pnl_pips = -p.sl_pips ∧
    (scanLoop p st bars).result.tp1_hit = false := by
  induction bars generalizing st with
  | nil => rw [scanLoop] at hl; rw [hpend] at hl; exact absurd hl (by simp)
  | cons c rest ih =>
    cases hstep : scanStep p st c with
    | inl t =>
      simp only [scanLoop, hstep] at hl ⊢
      exact scanStep_inl_loss p st c t h2 hstep hl
    | inr s =>
      simp only [scanLoop, hstep] at hl ⊢
      obtain ⟨ho, _, _, hi2, _⟩ := scanStep_inr_spec p st c s hstep
      exact ih s (hi2 h2) (ho.trans hpend) hl

lemma scanLoop_pending (p : ScanParams) (st : ScanState) (bars : List Candle)
    (h2 : st.tp1Hit = st.result.tp1_hit)
    (h3 : st.tp1Hit = true → st.result.tp1_pips = |p.tp1 - p.entry_price| / p.pip_size)
    (hpend : st.result.outcome = "pending")
    (hp : (scanLoop p st bars).result.outcome = "pending") :
    (scanLoop p st bars).result.pnl_pips = st.result.pnl_pips ∧
    (scanLoop p st bars).result.tp1_hit = (scanLoop p st bars).tp1Hit ∧
    ((scanLoop p st bars).tp1Hit = true →
      (scanLoop p st bars).result.tp1_pips = |p.tp1 - p.entry_price| / p.pip_size) := by
  induction bars generalizing st with
  | nil => exact ⟨rfl, h2.symm, h3⟩
  | cons c rest ih =>
    cases hstep : scanStep p st c with
    | inl t =>
      simp only [scanLoop, hstep] at hp ⊢
      have := scanStep_inl_outcome p st c t hstep
      rw [hp] at this
      exact absurd this (by simp +decide [terminalOutcomes])
    | inr s =>
      simp only [scanLoop, hstep] at hp ⊢
      obtain ⟨ho, hpnl, _, hi2, hi3⟩ := scanStep_inr_spec p st c s hstep
      obtain ⟨e1, e2, e3⟩ := ih s (hi2 h2) (hi3 h3) (ho.trans hpend) hp
      exact ⟨e1.trans hpnl, e2, e3⟩

@[simp] lemma simScanParams_bias (bias : String) (em ex t1 t2 slp ps pct : ℚ) (kz tz : Int) :
    (simScanParams bias em ex t1 t2 slp ps pct kz tz).bias = bias := rfl

@[simp] lemma simScanParams_entry_price (bias : String) (em ex t1 t2 slp ps pct : ℚ)
    (kz tz : Int) : (simScanParams bias em ex t1 t2 slp ps pct kz tz).entry_price
      = (em + ex) / 2 := rfl

@[simp] lemma simScanParams_tp1 (bias : String) (em ex t1 t2 slp ps pct : ℚ) (kz tz : Int) :
    (simScanParams bias em ex t1 t2 slp ps pct kz tz).tp1 = t1 := rfl

@[simp] lemma simScanParams_tp2 (bias : String) (em ex t1 t2 slp ps pct : ℚ) (kz tz : Int) :
    (simScanParams bias em ex t1 t2 slp ps pct kz tz).tp2 = t2 := rfl

@[simp] lemma simScanParams_sl_pips (bias : String) (em ex t1 t2 slp ps pct : ℚ) (kz tz : Int) :
    (simScanParams bias em ex t1 t2 slp ps pct kz tz).sl_pips = slp := rfl

@[simp] lemma simScanParams_pip_size (bias : String) (em ex t1 t2 slp ps pct : ℚ) (kz tz : Int) :
    (simScanParams bias em ex t1 t2 slp ps pct kz tz).pip_size = ps := rfl

@[simp] lemma simScanParams_tp1_close_pct (bias : String) (em ex t1 t2 slp ps pct : ℚ)
    (kz tz : Int) : (simScanParams bias em ex t1 t2 slp ps pct kz tz).tp1_close_pct = pct := rfl

@[simp] lemma simScanParams_kill_zone (bias : String) (em ex t1 t2 slp ps pct : ℚ) (kz tz : Int) :
    (simScanParams bias em ex t1 t2 slp ps pct kz tz).kill_zone_end_hour = kz := rfl

@[simp] lemma simScanParams_tz (bias : String) (em ex t1 t2 slp ps pct : ℚ) (kz tz : Int) :
    (simScanParams bias em ex t1 t2 slp ps pct kz tz).timezone_offset = tz := rfl

@[simp] lemma simEntryState_tp1Hit (bias : String) (em ex sl t1 t2 slp : ℚ) (cs cf et : String) :
    (simEntryState bias em ex sl t1 t2 slp cs cf et).tp1Hit = false := rfl

@[simp] lemma simEntryState_tp2Hit (bias : String) (em ex sl t1 t2 slp : ℚ) (cs cf et : String) :
    (simEntryState bias em ex sl t1 t2 slp cs cf et).tp2Hit = false := rfl

@[simp] lemma simEntryState_slHit (bias : String) (em ex sl t1 t2 slp : ℚ) (cs cf et : String) :
    (simEntryState bias em ex sl t1 t2 slp cs cf et).slHit = false := rfl

@[simp] lemma simEntryState_currentSl (bias : String) (em ex sl t1 t2 slp : ℚ)
    (cs cf et : String) : (simEntryState bias em ex sl t1 t2 slp cs cf et).currentSl = sl := rfl

@[simp] lemma simEntryState_outcome (bias : String) (em ex sl t1 t2 slp : ℚ)
    (cs cf et : String) :
    (simEntryState bias em ex sl t1 t2 slp cs cf et).result.outcome = "pending" := rfl

@[simp] lemma simEntryState_tp1_hit (bias : String) (em ex sl t1 t2 slp : ℚ)
    (cs cf et : String) :
    (simEntryState bias em ex sl t1 t2 slp cs cf et).result.tp1_hit = false := rfl

@[simp] lemma simEntryState_tp1_pips (bias : String) (em ex sl t1 t2 slp : ℚ)
    (cs cf et : String) :
    (simEntryState bias em ex sl t1 t2 slp cs cf et).result.tp1_pips = 0 := rfl

@[simp] lemma simEntryState_pnl (bias : String) (em ex sl t1 t2 slp : ℚ) (cs cf et : String) :
    (simEntryState bias em ex sl t1 t2 slp cs cf et).result.pnl_pips = 0 := rfl

@[simp] lemma simEntryState_entry_time (bias : String) (em ex sl t1 t2 slp : ℚ)
    (cs cf et : String) :
    (simEntryState bias em ex sl t1 t2 slp cs cf et).result.entry_time = et := rfl

@[simp] lemma simEntryState_entry_price (bias : String) (em ex sl t1 t2 slp : ℚ)
    (cs cf et : String) :
    (simEntryState bias em ex sl t1 t2 slp cs cf et).result.entry_price = (em + ex) / 2 := rfl

lemma simulate_trade_entered_eq (bias : String)
    (entry_min entry_max stop_loss tp1 tp2 sl_pips : ℚ)
    (m1_candles : List Candle) (search_start : String)
    (kill_zone_end_hour timezone_offset : Int) (pip_size tp1_close_pct : ℚ)
    (checklist_score confidence : String) (c : Candle) (rest : List Candle)
    (hnil : m1_candles ≠ [])
    (hfe : findEntry bias entry_min entry_max search_start kill_zone_end_hour timezone_offset
      m1_candles = .entered c rest) :
    simulate_trade bias entry_min entry_max stop_loss tp1 tp2 sl_pips m1_candles search_start
      kill_zone_end_hour timezone_offset pip_size tp1_close_pct checklist_score confidence =
    (let stF := scanLoop
        (simScanParams bias entry_min entry_max tp1 tp2 sl_pips pip_size tp1_close_pct
          kill_zone_end_hour timezone_offset)
        (simEntryState bias entry_min entry_max stop_loss tp1 tp2 sl_pips
          checklist_score confidence c.time) rest
     let r := { stF.result with
       max_adverse_pips := stF.maxAdverse, max_favorable_pips := stF.maxFavorable }
     if r.outcome = "pending" then
       { r with
         outcome := "expired", expired := true,
         duration_minutes := calcDuration r.entry_time (lastTime m1_candles) }
     else r) := by
  simp only [simulate_trade, if_neg hnil, hfe]

/-- C7: on every input, the outcome of simulate_trade is one of the
seven published result kinds; the initial pending marker never escapes,
also at end of data. -/
theorem spec_c7 (bias : String) (entry_min entry_max stop_loss tp1 tp2 sl_pips : ℚ)
    (m1_candles : List Candle) (search_start : String)
    (kill_zone_end_hour timezone_offset : Int) (pip_size tp1_close_pct : ℚ)
    (checklist_score confidence : String) :
    (simulate_trade bias entry_min entry_max stop_loss tp1 tp2 sl_pips m1_candles search_start
      kill_zone_end_hour timezone_offset pip_size tp1_close_pct checklist_score confidence).outcome
      ∈ ["full_win", "partial_win", "loss", "breakeven", "expired", "no_entry", "no_data"] := by
  by_cases hnil : m1_candles = []
  · simp [simulate_trade, hnil]
  · cases hfe : findEntry bias entry_min entry_max search_start kill_zone_end_hour
        timezone_offset m1_candles with
    | expired => simp [simulate_trade, if_neg hnil, hfe]
    | noEntry => simp [simulate_trade, if_neg hnil, hfe]
    | entered c rest =>
      rw [simulate_trade_entered_eq bias entry_min entry_max stop_loss tp1 tp2 sl_pips
        m1_candles search_start kill_zone_end_hour timezone_offset pip_size tp1_close_pct
        checklist_score confidence c rest hnil hfe]
      simp only []
      split
      · simp
      · next hnp =>
        have hout := scanLoop_outcome
          (simScanParams bias entry_min entry_max tp1 tp2 sl_pips pip_size tp1_close_pct
            kill_zone_end_hour timezone_offset)
          (simEntryState bias entry_min entry_max stop_loss tp1 tp2 sl_pips
            checklist_score confidence c.time) rest
        rcases hout with h | h
        · exact absurd h hnp
        · simp only [terminalOutcomes, List.mem_cons, List.not_mem_nil, or_false] at h
          rcases h with h|h|h|h|h <;> simp [h]

/-- C2: a full_win result has both take profits hit, its tp pip fields
equal to the pip distances from the midpoint entry price, and its pnl
the tp1_close_pct weighted sum of the two. -/
theorem spec_c2 (bias : String) (entry_min entry_max stop_loss tp1 tp2 sl_pips : ℚ)
    (m1_candles : List Candle) (search_start : String)
    (kill_zone_end_hour timezone_offset : Int) (pip_size tp1_close_pct : ℚ)
    (checklist_score confidence : String) (r : SimulatedResult)
    (hr : r = simulate_trade bias entry_min entry_max stop_loss tp1 tp2 sl_pips m1_candles
      search_start kill_zone_end_hour timezone_offset pip_size tp1_close_pct
      checklist_score confidence)
    (hfw : r.outcome = "full_win") :
    r.tp1_hit = true ∧ r.tp2_hit = true ∧
    r.tp1_pips = |tp1 - (entry_min + entry_max) / 2| / pip_size ∧
    r.tp2_pips = |tp2 - (entry_min + entry_max) / 2| / pip_size ∧
    r.pnl_pips = r.tp1_pips * (tp1_close_pct / 100) + r.tp2_pips * (1 - tp1_close_pct / 100) := by
  subst hr
  by_cases hnil : m1_candles = []
  · simp [simulate_trade, hnil] at hfw
  · cases hfe : findEntry bias entry_min entry_max search_start kill_zone_end_hour
        timezone_offset m1_candles with
    | expired => simp [simulate_trade, if_neg hnil, hfe] at hfw
    | noEntry => simp [simulate_trade, if_neg hnil, hfe] at hfw
    | entered c rest =>
      rw [simulate_trade_entered_eq bias entry_min entry_max stop_loss tp1 tp2 sl_pips
        m1_candles search_start kill_zone_end_hour timezone_offset pip_size tp1_close_pct
        checklist_score confidence c rest hnil hfe] at hfw ⊢
      simp only [] at hfw ⊢
      split at hfw
      · simp at hfw
      · next hnp =>
        rw [if_neg hnp]
        obtain ⟨e1, e2, e3, e4, e5⟩ := scanLoop_full_win
          (simScanParams bias entry_min entry_max tp1 tp2 sl_pips pip_size tp1_close_pct
            kill_zone_end_hour timezone_offset)
          (simEntryState bias entry_min entry_max stop_loss tp1 tp2 sl_pips
            checklist_score confidence c.time) rest rfl (by simp [simEntryState]) rfl hfw
        refine ⟨e1, e2, ?_, ?_, ?_⟩
        · simpa using e3
        · simpa using e4
        · show (scanLoop _ _ rest).result.pnl_pips = _
          rw [e5]
          simp only [simScanParams_tp1_close_pct]
          ring

/-- C3: a loss with TP1 never hit pays exactly minus the stop distance
in pips, independent of how far the bar moved. -/
theorem spec_c3 (bias : String) (entry_min entry_max stop_loss tp1 tp2 sl_pips : ℚ)
    (m1_candles : List Candle) (search_start : String)
    (kill_zone_end_hour timezone_offset : Int) (pip_size tp1_close_pct : ℚ)
    (checklist_score confidence : String) (r : SimulatedResult)
    (hr : r = simulate_trade bias entry_min entry_max stop_loss tp1 tp2 sl_pips m1_candles
      search_start kill_zone_end_hour timezone_offset pip_size tp1_close_pct
      checklist_score confidence)
    (hl : r.outcome = "loss") (hnt : r.tp1_hit = false) :
    r.pnl_pips = -sl_pips := by
  subst hr
  by_cases hnil : m1_candles = []
  · simp [simulate_trade, hnil] at hl
  · cases hfe : findEntry bias entry_min entry_max search_start kill_zone_end_hour
        timezone_offset m1_candles with
    | expired => simp [simulate_trade, if_neg hnil, hfe] at hl
    | noEntry => simp [simulate_trade, if_neg hnil, hfe] at hl
    | entered c rest =>
      rw [simulate_trade_entered_eq bias entry_min entry_max stop_loss tp1 tp2 sl_pips
        m1_candles search_start kill_zone_end_hour timezone_offset pip_size tp1_close_pct
        checklist_score confidence c rest hnil hfe] at hl ⊢
      simp only [] at hl ⊢
      split at hl
      · simp at hl
      · next hnp =>
        rw [if_neg hnp]
        obtain ⟨e1, _⟩ := scanLoop_loss
          (simScanParams bias entry_min entry_max tp1 tp2 sl_pips pip_size tp1_close_pct
            kill_zone_end_hour timezone_offset)
          (simEntryState bias entry_min entry_max stop_loss tp1 tp2 sl_pips
            checklist_score confidence c.time) rest rfl rfl hl
        exact e1

/-- C1 amended: on a bar processed by the stop and target checks (local
hour below the session cutoff), with TP1 not yet hit and both the stop
and the TP1 trigger touched, the phase 2 loop of simulate_trade resolves
the bar as the stop loss: outcome loss at minus the stop distance, on
either side. -/
theorem spec_c1_amended (p : ScanParams) (st : ScanState) (c : Candle) (rest : List Candle)
    (h1 : st.tp1Hit = false) (h2 : st.slHit = false)
    (hhour : getMezHour c.time p.timezone_offset < p.kill_zone_end_hour)
    (hcond : (p.bias = "long" ∧ c.low ≤ st.currentSl ∧ p.tp1 ≤ c.high) ∨
             (p.bias = "short" ∧ st.currentSl ≤ c.high ∧ c.low ≤ p.tp1)) :
    (scanLoop p st (c :: rest)).result.outcome = "loss" ∧
    (scanLoop p st (c :: rest)).result.pnl_pips = -p.sl_pips := by
  rcases hcond with ⟨hb, hsl, _⟩ | ⟨hb, hsl, _⟩ <;>
    simp +decide [scanLoop, scanStep, if_neg (not_le.mpr hhour), hb, h1, h2, hsl]

/-- C1 witness: a concrete long state and bar touching both the stop and
TP1 before the cutoff resolves as a loss. -/
theorem spec_c1_witness :
    (scanLoop (simScanParams "long" 100 100.10 100.40 100.80 20 (1/100) 50 20 1)
      (simEntryState "long" 100 100.10 99.80 100.40 100.80 20 "" "" "2024-01-05 09:00")
      [⟨"2024-01-05 09:05", 100, 100.50, 99.70, 99.75, 1⟩]).result.outcome = "loss" ∧
    (scanLoop (simScanParams "long" 100 100.10 100.40 100.80 20 (1/100) 50 20 1)
      (simEntryState "long" 100 100.10 99.80 100.40 100.80 20 "" "" "2024-01-05 09:00")
      [⟨"2024-01-05 09:05", 100, 100.50, 99.70, 99.75, 1⟩]).result.pnl_pips = -20 := by
  have h := spec_c1_amended
    (simScanParams "long" 100 100.10 100.40 100.80 20 (1/100) 50 20 1)
    (simEntryState "long" 100 100.10 99.80 100.40 100.80 20 "" "" "2024-01-05 09:00")
    ⟨"2024-01-05 09:05", 100, 100.50, 99.70, 99.75, 1⟩ [] rfl rfl (by decide)
    (Or.inl ⟨rfl, (by norm_num : (99.70 : ℚ) ≤ 99.80), (by norm_num : (100.40 : ℚ) ≤ 100.50)⟩)
  simpa using h

/-- C1 counterexample to the unqualified claim: after entry, a session
cutoff bar that touches both the stop and TP1 with TP1 not yet hit is
resolved as the cutoff close, outcome expired, not loss. -/
theorem spec_c1_counterexample :
    (simulate_trade "long" 100 100.10 99.80 100.40 100.80 20
      [⟨"2024-01-05 09:00", 100.08, 100.12, 100.05, 100.06, 1⟩,
       ⟨"2024-01-05 19:30", 100, 100.50, 99.70, 100, 1⟩] "" 20 1 (1/100) 50 "" "").outcome
      = "expired" ∧
    ¬ (simulate_trade "long" 100 100.10 99.80 100.40 100.80 20
      [⟨"2024-01-05 09:00", 100.08, 100.12, 100.05, 100.06, 1⟩,
       ⟨"2024-01-05 19:30", 100, 100.50, 99.70, 100, 1⟩] "" 20 1 (1/100) 50 "" "").outcome
      = "loss" ∧
    (simulate_trade "long" 100 100.10 99.80 100.40 100.80 20
      [⟨"2024-01-05 09:00", 100.08, 100.12, 100.05, 100.06, 1⟩,
       ⟨"2024-01-05 19:30", 100, 100.50, 99.70, 100, 1⟩] "" 20 1 (1/100) 50 "" "").tp1_hit
      = false ∧
    (99.70 : ℚ) ≤ 99.80 ∧ (100.40 : ℚ) ≤ 100.50 := by
  norm_num +decide [abs, simulate_trade, findEntry, scanLoop, scanStep, lastTime,
    simScanParams, simEntryState]

lemma findEntry_skip (bias : String) (em ex : ℚ) (ss : String) (kz tz : Int)
    (skipped l : List Candle)
    (hskip : ∀ b ∈ skipped, ss ≠ "" ∧ b.time < ss) :
    findEntry bias em ex ss kz tz (skipped ++ l) = findEntry bias em ex ss kz tz l := by
  induction skipped with
  | nil => rfl
  | cons b bs ih =>
    have hb := hskip b (by simp)
    simp only [List.cons_append, findEntry, if_pos hb]
    exact ih (fun x hx => hskip x (by simp [hx]))

/-- C4 amended: when the first bar at or after search_start already has
local hour at or past the session cutoff, the result is expired with
expired set, the entry time left empty, and the entry price field
pre-populated with the zone midpoint. -/
theorem spec_c4_amended (bias : String) (entry_min entry_max stop_loss tp1 tp2 sl_pips : ℚ)
    (search_start : String) (kill_zone_end_hour timezone_offset : Int)
    (pip_size tp1_close_pct : ℚ) (checklist_score confidence : String)
    (skipped : List Candle) (c : Candle) (rest : List Candle) (r : SimulatedResult)
    (hskip : ∀ b ∈ skipped, search_start ≠ "" ∧ b.time < search_start)
    (hc : ¬(search_start ≠ "" ∧ c.time < search_start))
    (hhour : kill_zone_end_hour ≤ getMezHour c.time timezone_offset)
    (hr : r = simulate_trade bias entry_min entry_max stop_loss tp1 tp2 sl_pips
      (skipped ++ c :: rest) search_start kill_zone_end_hour timezone_offset pip_size
      tp1_close_pct checklist_score confidence) :
    r.outcome = "expired" ∧ r.expired = true ∧ r.entry_time = "" ∧
    r.entry_price = (entry_min + entry_max) / 2 := by
  subst hr
  have hnil : skipped ++ c :: rest ≠ [] := by simp
  have hfe : findEntry bias entry_min entry_max search_start kill_zone_end_hour
      timezone_offset (skipped ++ c :: rest) = .expired := by
    rw [findEntry_skip bias entry_min entry_max search_start kill_zone_end_hour
      timezone_offset skipped (c :: rest) hskip]
    simp only [findEntry, if_neg hc, if_pos hhour]
  simp [simulate_trade, if_neg hnil, hfe]

/-- C4 witness for the amended statement. -/
theorem spec_c4_witness :
    (simulate_trade "long" 100 100.10 99.80 100.40 100.80 20
      [⟨"2024-01-05 19:30", 100, 100.50, 99.70, 100, 1⟩] "" 20 1
      (1/100) 50 "" "").outcome = "expired" ∧
    (simulate_trade "long" 100 100.10 99.80 100.40 100.80 20
      [⟨"2024-01-05 19:30", 100, 100.50, 99.70, 100, 1⟩] "" 20 1
      (1/100) 50 "" "").expired = true ∧
    (simulate_trade "long" 100 100.10 99.80 100.40 100.80 20
      [⟨"2024-01-05 19:30", 100, 100.50, 99.70, 100, 1⟩] "" 20 1
      (1/100) 50 "" "").entry_time = "" ∧
    (simulate_trade "long" 100 100.10 99.80 100.40 100.80 20
      [⟨"2024-01-05 19:30", 100, 100.50, 99.70, 100, 1⟩] "" 20 1
      (1/100) 50 "" "").entry_price = (100 + 100.10) / 2 :=
  spec_c4_amended "long" 100 100.10 99.80 100.40 100.80 20 "" 20 1 (1/100) 50 "" ""
    [] ⟨"2024-01-05 19:30", 100, 100.50, 99.70, 100, 1⟩ [] _
    (by simp) (by simp) (by decide) rfl

/-- C4 counterexample to the claim as stated: the pre-entry expired
record does carry a populated entry price, the zone midpoint, not an
empty value. -/
theorem spec_c4_counterexample :
    (simulate_trade "long" 100 100.10 99.80 100.40 100.80 20
      [⟨"2024-01-05 19:30", 100, 100.50, 99.70, 100, 1⟩] "" 20 1
      (1/100) 50 "" "").outcome = "expired" ∧
    (simulate_trade "long" 100 100.10 99.80 100.40 100.80 20
      [⟨"2024-01-05 19:30", 100, 100.50, 99.70, 100, 1⟩] "" 20 1
      (1/100) 50 "" "").entry_price = 100.05 ∧
    ¬ ((100.05 : ℚ) = 0) := by
  norm_num +decide [simulate_trade, findEntry, simScanParams, simEntryState]

/-- C10: entry followed by a TP1 hit and then end of data with no
terminal trigger is finalized as expired with zero pnl, although TP1 was
hit for a positive pip distance; the banked TP1 portion is not credited,
unlike at a session cutoff close. -/
theorem spec_c10 (bias : String) (entry_min entry_max stop_loss tp1 tp2 sl_pips : ℚ)
    (m1_candles : List Candle) (search_start : String)
    (kill_zone_end_hour timezone_offset : Int) (pip_size tp1_close_pct : ℚ)
    (checklist_score confidence : String) (c : Candle) (rest : List Candle)
    (r : SimulatedResult)
    (hfe : findEntry bias entry_min entry_max search_start kill_zone_end_hour timezone_offset
      m1_candles = .entered c rest)
    (hF1 : (scanLoop (simScanParams bias entry_min entry_max tp1 tp2 sl_pips pip_size
        tp1_close_pct kill_zone_end_hour timezone_offset)
      (simEntryState bias entry_min entry_max stop_loss tp1 tp2 sl_pips checklist_score
        confidence c.time) rest).tp1Hit = true)
    (hF2 : (scanLoop (simScanParams bias entry_min entry_max tp1 tp2 sl_pips pip_size
        tp1_close_pct kill_zone_end_hour timezone_offset)
      (simEntryState bias entry_min entry_max stop_loss tp1 tp2 sl_pips checklist_score
        confidence c.time) rest).result.outcome = "pending")
    (hpip : 0 < pip_size) (htp : tp1 ≠ (entry_min + entry_max) / 2)
    (hr : r = simulate_trade bias entry_min entry_max stop_loss tp1 tp2 sl_pips m1_candles
      search_start kill_zone_end_hour timezone_offset pip_size tp1_close_pct
      checklist_score confidence) :
    r.outcome = "expired" ∧ r.expired = true ∧ r.pnl_pips = 0 ∧ r.tp1_hit = true ∧
    0 < r.tp1_pips := by
  subst hr
  have hnil : m1_candles ≠ [] := by
    intro h
    rw [h] at hfe
    simp [findEntry] at hfe
  rw [simulate_trade_entered_eq bias entry_min entry_max stop_loss tp1 tp2 sl_pips
    m1_candles search_start kill_zone_end_hour timezone_offset pip_size tp1_close_pct
    checklist_score confidence c rest hnil hfe]
  simp only []
  obtain ⟨e1, e2, e3⟩ := scanLoop_pending
    (simScanParams bias entry_min entry_max tp1 tp2 sl_pips pip_size tp1_close_pct
      kill_zone_end_hour timezone_offset)
    (simEntryState bias entry_min entry_max stop_loss tp1 tp2 sl_pips checklist_score
      confidence c.time) rest rfl (by simp) rfl hF2
  split
  · refine ⟨rfl, rfl, ?_, ?_, ?_⟩
    · show (scanLoop _ _ rest).result.pnl_pips = 0
      rw [e1]
      simp
    · show (scanLoop _ _ rest).result.tp1_hit = true
      rw [e2, hF1]
    · show 0 < (scanLoop _ _ rest).result.tp1_pips
      rw [e3 hF1]
      simp only [simScanParams_tp1, simScanParams_entry_price, simScanParams_pip_size]
      exact div_pos (abs_pos.mpr (sub_ne_zero.mpr htp)) hpip
  · next hnp => exact absurd hF2 hnp

/-- C2 witness: scenario A, a long trade entering and hitting TP1 then
TP2. -/
theorem spec_c2_witness :
    (simulate_trade "long" 100 100.10 99.80 100.40 100.80 20
      [⟨"2024-01-05 09:00", 100.08, 100.12, 100.05, 100.06, 1⟩,
       ⟨"2024-01-05 09:05", 100.20, 100.45, 100.20, 100.40, 1⟩,
       ⟨"2024-01-05 09:10", 100.50, 100.85, 100.45, 100.80, 1⟩] "" 20 1
      (1/100) 50 "" "").tp1_hit = true ∧
    (simulate_trade "long" 100 100.10 99.80 100.40 100.80 20
      [⟨"2024-01-05 09:00", 100.08, 100.12, 100.05, 100.06, 1⟩,
       ⟨"2024-01-05 09:05", 100.20, 100.45, 100.20, 100.40, 1⟩,
       ⟨"2024-01-05 09:10", 100.50, 100.85, 100.45, 100.80, 1⟩] "" 20 1
      (1/100) 50 "" "").tp2_hit = true ∧
    (simulate_trade "long" 100 100.10 99.80 100.40 100.80 20
      [⟨"2024-01-05 09:00", 100.08, 100.12, 100.05, 100.06, 1⟩,
       ⟨"2024-01-05 09:05", 100.20, 100.45, 100.20, 100.40, 1⟩,
       ⟨"2024-01-05 09:10", 100.50, 100.85, 100.45, 100.80, 1⟩] "" 20 1
      (1/100) 50 "" "").tp1_pips = |100.40 - (100 + 100.10) / 2| / (1/100) ∧
    (simulate_trade "long" 100 100.10 99.80 100.40 100.80 20
      [⟨"2024-01-05 09:00", 100.08, 100.12, 100.05, 100.06, 1⟩,
       ⟨"2024-01-05 09:05", 100.20, 100.45, 100.20, 100.40, 1⟩,
       ⟨"2024-01-05 09:10", 100.50, 100.85, 100.45, 100.80, 1⟩] "" 20 1
      (1/100) 50 "" "").tp2_pips = |100.80 - (100 + 100.10) / 2| / (1/100) ∧
    (simulate_trade "long" 100 100.10 99.80 100.40 100.80 20
      [⟨"2024-01-05 09:00", 100.08, 100.12, 100.05, 100.06, 1⟩,
       ⟨"2024-01-05 09:05", 100.20, 100.45, 100.20, 100.40, 1⟩,
       ⟨"2024-01-05 09:10", 100.50, 100.85, 100.45, 100.80, 1⟩] "" 20 1
      (1/100) 50 "" "").pnl_pips =
      (simulate_trade "long" 100 100.10 99.80 100.40 100.80 20
        [⟨"2024-01-05 09:00", 100.08, 100.12, 100.05, 100.06, 1⟩,
         ⟨"2024-01-05 09:05", 100.20, 100.45, 100.20, 100.40, 1⟩,
         ⟨"2024-01-05 09:10", 100.50, 100.85, 100.45, 100.80, 1⟩] "" 20 1
        (1/100) 50 "" "").tp1_pips * (50 / 100) +
      (simulate_trade "long" 100 100.10 99.80 100.40 100.80 20
        [⟨"2024-01-05 09:00", 100.08, 100.12, 100.05, 100.06, 1⟩,
         ⟨"2024-01-05 09:05", 100.20, 100.45, 100.20, 100.40, 1⟩,
         ⟨"2024-01-05 09:10", 100.50, 100.85, 100.45, 100.80, 1⟩] "" 20 1
        (1/100) 50 "" "").tp2_pips * (1 - 50 / 100) :=
  spec_c2 "long" 100 100.10 99.80 100.40 100.80 20
    [⟨"2024-01-05 09:00", 100.08, 100.12, 100.05, 100.06, 1⟩,
     ⟨"2024-01-05 09:05", 100.20, 100.45, 100.20, 100.40, 1⟩,
     ⟨"2024-01-05 09:10", 100.50, 100.85, 100.45, 100.80, 1⟩] "" 20 1 (1/100) 50 "" "" _
    rfl
    (by norm_num +decide [abs, simulate_trade, findEntry, scanLoop, scanStep, lastTime,
      simScanParams, simEntryState])

/-- C3 witness: scenario B, stop hit before TP1 pays exactly minus the
stop distance. -/
theorem spec_c3_witness :
    (simulate_trade "long" 100 100.10 99.80 100.40 100.80 20
      [⟨"2024-01-05 09:00", 100.08, 100.12, 100.05, 100.06, 1⟩,
       ⟨"2024-01-05 09:05", 100.00, 100.10, 99.75, 99.90, 1⟩] "" 20 1
      (1/100) 50 "" "").pnl_pips = -20 :=
  spec_c3 "long" 100 100.10 99.80 100.40 100.80 20
    [⟨"2024-01-05 09:00", 100.08, 100.12, 100.05, 100.06, 1⟩,
     ⟨"2024-01-05 09:05", 100.00, 100.10, 99.75, 99.90, 1⟩] "" 20 1 (1/100) 50 "" "" _
    rfl
    (by norm_num +decide [abs, simulate_trade, findEntry, scanLoop, scanStep, lastTime,
      simScanParams, simEntryState])
    (by norm_num +decide [abs, simulate_trade, findEntry, scanLoop, scanStep, lastTime,
      simScanParams, simEntryState])

/-- C10 witness: entry bar, TP1 bar, then end of data gives expired with
zero pnl despite the banked TP1. -/
theorem spec_c10_witness :
    (simulate_trade "long" 100 100.10 99.80 100.40 100.80 20
      [⟨"2024-01-05 09:00", 100.08, 100.12, 100.05, 100.06, 1⟩,
       ⟨"2024-01-05 09:05", 100.20, 100.45, 100.20, 100.40, 1⟩] "" 20 1
      (1/100) 50 "" "").outcome = "expired" ∧
    (simulate_trade "long" 100 100.10 99.80 100.40 100.80 20
      [⟨"2024-01-05 09:00", 100.08, 100.12, 100.05, 100.06, 1⟩,
       ⟨"2024-01-05 09:05", 100.20, 100.45, 100.20, 100.40, 1⟩] "" 20 1
      (1/100) 50 "" "").expired = true ∧
    (simulate_trade "long" 100 100.10 99.80 100.40 100.80 20
      [⟨"2024-01-05 09:00", 100.08, 100.12, 100.05, 100.06, 1⟩,
       ⟨"2024-01-05 09:05", 100.20, 100.45, 100.20, 100.40, 1⟩] "" 20 1
      (1/100) 50 "" "").pnl_pips = 0 ∧
    (simulate_trade "long" 100 100.10 99.80 100.40 100.80 20
      [⟨"2024-01-05 09:00", 100.08, 100.12, 100.05, 100.06, 1⟩,
       ⟨"2024-01-05 09:05", 100.20, 100.45, 100.20, 100.40, 1⟩] "" 20 1
      (1/100) 50 "" "").tp1_hit = true ∧
    0 < (simulate_trade "long" 100 100.10 99.80 100.40 100.80 20
      [⟨"2024-01-05 09:00", 100.08, 100.12, 100.05, 100.06, 1⟩,
       ⟨"2024-01-05 09:05", 100.20, 100.45, 100.20, 100.40, 1⟩] "" 20 1
      (1/100) 50 "" "").tp1_pips :=
  spec_c10 "long" 100 100.10 99.80 100.40 100.80 20
    [⟨"2024-01-05 09:00", 100.08, 100.12, 100.05, 100.06, 1⟩,
     ⟨"2024-01-05 09:05", 100.20, 100.45, 100.20, 100.40, 1⟩] "" 20 1 (1/100) 50 "" ""
    ⟨"2024-01-05 09:00", 100.08, 100.12, 100.05, 100.06, 1⟩
    [⟨"2024-01-05 09:05", 100.20, 100.45, 100.20, 100.40, 1⟩] _
    (by norm_num +decide [findEntry])
    (by norm_num +decide [abs, scanLoop, scanStep, simScanParams, simEntryState])
    (by norm_num +decide [abs, scanLoop, scanStep, simScanParams, simEntryState])
    (by norm_num) (by norm_num) rfl

lemma foldl_add_pnl_nonneg (l : List SimulatedResult) (acc : ℚ) (h : 0 ≤ acc)
    (hl : ∀ r ∈ l, 0 ≤ r.pnl_pips) : 0 ≤ l.foldl (fun a r => a + r.pnl_pips) acc := by
  induction l generalizing acc with
  | nil => exact h
  | cons x xs ih =>
    exact ih _ (add_nonneg h (hl x (by simp))) (fun r hr => hl r (by simp [hr]))

lemma roundTo_zero (n : Nat) : roundTo 0 n = 0 := by
  norm_num [roundTo, roundHalfEven]

/-- C5: the summary profit factor is the guarded quotient of gross
profit by gross loss over entered trades, infinity when there is gross
profit but no gross loss, and zero when there is neither; gross loss is
never negative, so the quotient branch always divides by a positive
number. -/
theorem spec_c5 (results : List SimulatedResult) :
    0 ≤ grossLoss (tradedFilter results) ∧ 0 ≤ grossProfit (tradedFilter results) ∧
    (computeRunSummary results).profit_factor =
      (if 0 < grossLoss (tradedFilter results) then
        ProfitFactor.value (roundTo
          (grossProfit (tradedFilter results) / grossLoss (tradedFilter results)) 2)
       else if 0 < grossProfit (tradedFilter results) then ProfitFactor.posInf
       else ProfitFactor.value 0) := by
  refine ⟨abs_nonneg _, ?_, ?_⟩
  · apply foldl_add_pnl_nonneg _ _ le_rfl
    intro r hr
    have := (List.mem_filter.mp hr).2
    simp only [decide_eq_true_eq] at this
    exact le_of_lt this
  · show (computeRunSummary results).profit_factor = _
    simp only [computeRunSummary, profitFactorOf, roundPF]
    split_ifs <;> simp [roundTo_zero]

/-- C6: a batch produces one result per setup and a summary over all of
them; a setup whose date has no candles yields the no_data sentinel
without simulation squares, the others are simulated with the setup and
run parameters; simulate_trade itself maps an empty candle list to a
no_data record instead of failing. -/
theorem spec_c6 (lookup : String → List Candle) (kill_zone_end_hour timezone_offset : Int)
    (tp1_close_pct : ℚ) (setups : List Setup) (i : Nat) (hi : i < setups.length)
    (bias ss cs cf : String) (em ex sl t1 t2 slp ps pc : ℚ) (kz2 tz2 : Int) :
    (run_backtest lookup kill_zone_end_hour timezone_offset tp1_close_pct setups).1.length
      = setups.length ∧
    (run_backtest lookup kill_zone_end_hour timezone_offset tp1_close_pct setups).2
      = computeRunSummary
          (run_backtest lookup kill_zone_end_hour timezone_offset tp1_close_pct setups).1 ∧
    (lookup setups[i].date = [] →
      (run_backtest lookup kill_zone_end_hour timezone_offset tp1_close_pct setups).1[i]?
        = some (noDataSentinel setups[i]) ∧
      (noDataSentinel setups[i]).outcome = "no_data") ∧
    (lookup setups[i].date ≠ [] →
      (run_backtest lookup kill_zone_end_hour timezone_offset tp1_close_pct setups).1[i]?
        = some (simulate_trade setups[i].bias setups[i].entry_min setups[i].entry_max
            setups[i].stop_loss setups[i].tp1 setups[i].tp2 setups[i].sl_pips
            (lookup setups[i].date) setups[i].search_start kill_zone_end_hour
            timezone_offset GBPJPY_PIP_SIZE
            (match setups[i].tp1_close_pct with | some q => q | none => tp1_close_pct)
            setups[i].checklist_score setups[i].confidence)) ∧
    (simulate_trade bias em ex sl t1 t2 slp [] ss kz2 tz2 ps pc cs cf).outcome
      = "no_data" := by
  refine ⟨by simp [run_backtest], rfl, ?_, ?_, by simp [simulate_trade]⟩
  · intro h
    refine ⟨?_, rfl⟩
    simp [run_backtest, runSetup, h, List.getElem?_map, List.getElem?_eq_getElem hi]
  · intro h
    simp [run_backtest, runSetup, h, List.getElem?_map, List.getElem?_eq_getElem hi]

lemma computeStreaks_eq_fold (ts : List BTrade) :
    computeStreaks ts = ts.foldl (fun s t => streakStep s t.outcome)
      { max_win_streak := 0, max_loss_streak := 0, current_streak := 0,
        current_type := "" } := by
  cases ts with
  | nil => rfl
  | cons t ts => simp [computeStreaks]

lemma streakStep_neutral (s : Streaks) (o : String)
    (h : ¬(o = "full_win" ∨ o = "partial_win" ∨ o = "loss")) : streakStep s o = s := by
  push_neg at h
  obtain ⟨n1, n2, n3⟩ := h
  simp [streakStep, n1, n2, n3]

lemma computeStreaks_append_neutral (ms : List BTrade) :
    ∀ ts : List BTrade,
      (∀ m ∈ ms, ¬(m.outcome = "full_win" ∨ m.outcome = "partial_win" ∨ m.outcome = "loss")) →
      computeStreaks (ts ++ ms) = computeStreaks ts := by
  induction ms with
  | nil => intro ts _; simp
  | cons m ms2 ih =>
    intro ts hms
    have hm := hms m (by simp)
    have h1 : computeStreaks ((ts ++ [m]) ++ ms2) = computeStreaks (ts ++ [m]) :=
      ih (ts ++ [m]) (fun x hx => hms x (by simp [hx]))
    have h2 : computeStreaks (ts ++ [m]) = computeStreaks ts := by
      rw [computeStreaks_eq_fold, computeStreaks_eq_fold, List.foldl_append]
      simp [streakStep_neutral _ _ hm]
    rw [show ts ++ m :: ms2 = (ts ++ [m]) ++ ms2 by simp, h1, h2]

/-- C8: one streak pass step: a win extends the current win streak or
starts one, a loss the loss streak, maxima tracked per type; every other
outcome leaves the streak state untouched, so a neutral segment between
wins keeps the same win streak running. -/
theorem spec_c8 (ts : List BTrade) (t : BTrade) (ms : List BTrade)
    (hms : ∀ m ∈ ms, ¬(m.outcome = "full_win" ∨ m.outcome = "partial_win" ∨
      m.outcome = "loss")) :
    computeStreaks (ts ++ [t]) =
      (if t.outcome = "full_win" ∨ t.outcome = "partial_win" then
        { max_win_streak := max (computeStreaks ts).max_win_streak
            (if (computeStreaks ts).current_type = "win" then
              (computeStreaks ts).current_streak + 1 else 1),
          max_loss_streak := (computeStreaks ts).max_loss_streak,
          current_streak := if (computeStreaks ts).current_type = "win" then
            (computeStreaks ts).current_streak + 1 else 1,
          current_type := "win" }
       else if t.outcome = "loss" then
        { max_win_streak := (computeStreaks ts).max_win_streak,
          max_loss_streak := max (computeStreaks ts).max_loss_streak
            (if (computeStreaks ts).current_type = "loss" then
              (computeStreaks ts).current_streak + 1 else 1),
          current_streak := if (computeStreaks ts).current_type = "loss" then
            (computeStreaks ts).current_streak + 1 else 1,
          current_type := "loss" }
       else computeStreaks ts) ∧
    computeStreaks (ts ++ ms) = computeStreaks ts := by
  refine ⟨?_, computeStreaks_append_neutral ms ts hms⟩
  rw [computeStreaks_eq_fold (ts ++ [t]), List.foldl_append]
  simp only [List.foldl_cons, List.foldl_nil]
  rw [← computeStreaks_eq_fold]
  by_cases hw : t.outcome = "full_win" ∨ t.outcome = "partial_win"
  · rw [if_pos hw]
    rcases hw with h | h <;> simp [streakStep, h]
  · rw [if_neg hw]
    by_cases hl : t.outcome = "loss"
    · rw [if_pos hl]
      simp +decide [streakStep, hl,
        (fun h => hw (Or.inl h) : ¬ t.outcome = "full_win"),
        (fun h => hw (Or.inr h) : ¬ t.outcome = "partial_win")]
    · rw [if_neg hl]
      exact streakStep_neutral _ _ (by tauto)

/-- C8 witness: a breakeven between two wins neither resets nor extends
the running win streak. -/
theorem spec_c8_witness :
    computeStreaks ([⟨"2024-01-05", "long", 100, "09:00", "10/12", "HIGH",
        "full_win", 55, 10⟩] ++
      [⟨"2024-01-06", "long", 100, "09:00", "10/12", "HIGH", "breakeven", 0, 10⟩]) =
    computeStreaks [⟨"2024-01-05", "long", 100, "09:00", "10/12", "HIGH",
      "full_win", 55, 10⟩] :=
  (spec_c8 [⟨"2024-01-05", "long", 100, "09:00", "10/12", "HIGH", "full_win", 55, 10⟩]
    ⟨"2024-01-06", "long", 100, "09:00", "10/12", "HIGH", "loss", -20, 10⟩
    [⟨"2024-01-06", "long", 100, "09:00", "10/12", "HIGH", "breakeven", 0, 10⟩]
    (by decide)).2

/-- C9: the report over an empty outcome collection: every breakdown is
empty (vacuously zero-valued, with the group statistics of an empty
group being the all-zero record), the equity curve is empty, streaks are
zero, and no division is attempted anywhere. -/
theorem spec_c9 (run : RunRecord) :
    (generate_report run []).by_checklist_score = [] ∧
    (generate_report run []).by_confidence = [] ∧
    (generate_report run []).by_bias = [] ∧
    (generate_report run []).by_day_of_week = [] ∧
    (generate_report run []).equity_curve = [] ∧
    (generate_report run []).streaks =
      { max_win_streak := 0, max_loss_streak := 0, current_streak := 0,
        current_type := "" } ∧
    (generate_report run []).best_trade = none ∧
    (generate_report run []).worst_trade = none ∧
    computeGroupStats [] =
      { count := 0, wins := 0, losses := 0, win_rate := 0, total_pnl := 0, avg_pnl := 0,
        profit_factor := .value 0 } ∧
    (generate_report run []).overview.avg_pnl_per_trade =
      roundTo (run.total_pnl_pips / (max run.total_trades 1 : ℚ)) 1 :=
  ⟨rfl, rfl, rfl, rfl, rfl, rfl, rfl, rfl, rfl, rfl⟩

/-- C6 witness: a two-setup batch where the second date has no candles:
the second outcome is the no_data sentinel while the batch still yields
a full result list. -/
theorem spec_c6_witness :
    (run_backtest
      (fun d => if d = "2024-01-05" then
        [⟨"2024-01-05 09:00", 100.08, 100.12, 100.05, 100.06, 1⟩] else []) 20 1 50
      [⟨"2024-01-05", "long", 100, 100.10, 99.80, 100.40, 100.80, 20, "", none, "", ""⟩,
       ⟨"2024-01-06", "long", 100, 100.10, 99.80, 100.40, 100.80, 20, "", none, "", ""⟩]).1[1]?
      = some (noDataSentinel
        ⟨"2024-01-06", "long", 100, 100.10, 99.80, 100.40, 100.80, 20, "", none, "", ""⟩) ∧
    (run_backtest
      (fun d => if d = "2024-01-05" then
        [⟨"2024-01-05 09:00", 100.08, 100.12, 100.05, 100.06, 1⟩] else []) 20 1 50
      [⟨"2024-01-05", "long", 100, 100.10, 99.80, 100.40, 100.80, 20, "", none, "", ""⟩,
       ⟨"2024-01-06", "long", 100, 100.10, 99.80, 100.40, 100.80, 20, "", none, "", ""⟩]).1.length
      = 2 := by
  have h := spec_c6
    (fun d => if d = "2024-01-05" then
      [⟨"2024-01-05 09:00", 100.08, 100.12, 100.05, 100.06, 1⟩] else []) 20 1 50
    [⟨"2024-01-05", "long", 100, 100.10, 99.80, 100.40, 100.80, 20, "", none, "", ""⟩,
     ⟨"2024-01-06", "long", 100, 100.10, 99.80, 100.40, 100.80, 20, "", none, "", ""⟩]
    1 (by decide) "x" "x" "x" "x" 0 0 0 0 0 0 0 0 0 0
  exact ⟨(h.2.2.1 rfl).1, h.1⟩
